import Mathlib

/-!
Shallow embedding of the LNURL server (src/server/src/main.rs) and the
truncation step of the LNURL client (src/client/src/main.rs).

The server keeps a shared `HashSet<String>` of single-use `k1` challenge
tokens; each handler is embedded as a pure function that takes the current
store and the outcomes of the external node-RPC calls (fund-channel, decode,
checkmessage, pay) as explicit parameters, and returns the HTTP status code,
the JSON response body, the resulting store, and a record of the adapter
calls it made.  Randomly generated values (UUID tokens, random challenge
bytes) are passed in as parameters.
-/

namespace Lnurl

/-- HTTP status codes used by the handlers (axum `StatusCode` values). -/
def statusOK : Nat := 200

/-- HTTP 400, `StatusCode::BAD_REQUEST`. -/
def statusBadRequest : Nat := 400

/-- HTTP 401, `StatusCode::UNAUTHORIZED`. -/
def statusUnauthorized : Nat := 401

/-- HTTP 500, `StatusCode::INTERNAL_SERVER_ERROR`. -/
def statusInternalServerError : Nat := 500

/-- The shared token store `Arc<Mutex<HashSet<String>>>`, embedded as a
finite set of strings.  Handlers hold the lock for the whole
check-and-remove, so each store operation is one atomic step here. -/
abbrev K1Store := Finset String

/-- Embedding of the validate-and-consume pattern shared by the three
callback handlers: `k1_store.remove(&params.k1)` on a `HashSet` returns
whether the token was present and removes it if so. -/
def validateAndConsume (s : K1Store) (k1 : String) : Bool × K1Store :=
  (decide (k1 ∈ s), s.erase k1)

/-- Constant `CALLBACK_URL` from the server source. -/
def CALLBACK_URL : String := "http://192.168.27.72:3000/"

/-- Constant `CHANNEL_REQUEST_TAG` from the server source. -/
def CHANNEL_REQUEST_TAG : String := "channelRequest"

/-- Constant `WITHDRAW_REQUEST_TAG` from the server source. -/
def WITHDRAW_REQUEST_TAG : String := "withdrawRequest"

/-- Constant `DEFAULT_DESCRIPTION` from the server source. -/
def DEFAULT_DESCRIPTION : String := "Withdrawal from service"

/-! ## request-channel (LUD-02, step 1) -/

/-- Response body of `GET /request-channel`. -/
structure RequestChannelResponse where
  uri : String
  callback : String
  k1 : String
  tag : String
deriving DecidableEq

/-- Embedding of the `request_channel` handler.  `node_uri` is the process
global `NODE_URI` set at startup; `k1` is the freshly generated
`Uuid::new_v4().to_string()` value, passed in as a parameter.  The handler
inserts the token into the store and answers 200. -/
def request_channel (store : K1Store) (node_uri k1 : String) :
    (Nat × RequestChannelResponse) × K1Store :=
  ((statusOK,
    { uri := node_uri
      callback := CALLBACK_URL ++ "open-channel"
      k1 := k1
      tag := CHANNEL_REQUEST_TAG }),
   insert k1 store)

/-! ## open-channel (LUD-02, step 2) -/

/-- Query parameters of `GET /open-channel`; `private'` embeds the Rust
field `private` (an `Option<bool>`). -/
structure OpenChannelParams where
  remoteid : String
  k1 : String
  private' : Option Bool
deriving DecidableEq

/-- Response body of `GET /open-channel` (absent optional fields are the
`..Default::default()` values). -/
structure OpenChannelResponse where
  status : String
  reason : Option String := none
  mindepth : Option Nat := none
  channel_id : Option String := none
  outnum : Option Nat := none
  tx : Option String := none
  txid : Option String := none
deriving DecidableEq

/-- The fields of `FundchannelRequest` the handler actually sets to
non-`None` values: node id, amount (`Amount::from_sat(100_000)`, recorded
here in satoshis) and `announce`. -/
structure FundchannelRequest where
  id : String
  amountSat : Nat
  announce : Option Bool
deriving DecidableEq

/-- The fields of a successful `FundchannelResponse` the handler reads. -/
structure FundchannelResponse where
  mindepth : Option Nat
  channel_id : String
  outnum : Nat
  tx : String
  txid : String
deriving DecidableEq

/-- Outcome of the `client.call(Request::FundChannel(..))` adapter call. -/
inductive FundChannelOutcome where
  | success (resp : FundchannelResponse)
  | unexpectedResponse
  | rpcError (msg : String)
deriving DecidableEq

/-- Result of one `open_channel` handler invocation: the HTTP response
(`none` models a panic, i.e. no response is produced), the store afterwards,
and the fund-channel request sent to the adapter, when one was sent. -/
structure OpenChannelResult where
  response : Option (Nat × OpenChannelResponse)
  store : K1Store
  fundCall : Option FundchannelRequest
deriving DecidableEq

/-- Embedding of the `open_channel` handler.  `parseRemoteId` is the outcome
of `params.remoteid.parse::<PublicKey>()` (the parsed key kept as its
string form); `fund` gives the adapter outcome for the fund-channel call.
Note two points taken verbatim from the source: the request sets
`announce := params.private` (the flag itself, not its inverse), and the
success branch evaluates `response.mindepth.unwrap()`, so a success response
with no `mindepth` panics (embedded as `response := none`). -/
def open_channel (store : K1Store) (params : OpenChannelParams)
    (parseRemoteId : Except String String)
    (fund : FundchannelRequest → FundChannelOutcome) : OpenChannelResult :=
  if (validateAndConsume store params.k1).1 = false then
    { response := some (statusBadRequest,
        { status := "ERROR", reason := some "Invalid or already used k1" })
      store := (validateAndConsume store params.k1).2
      fundCall := none }
  else
    match parseRemoteId with
    | Except.error e =>
      { response := some (statusBadRequest,
          { status := "ERROR", reason := some ("Invalid node id: " ++ e) })
        store := (validateAndConsume store params.k1).2
        fundCall := none }
    | Except.ok node_id =>
      let request : FundchannelRequest :=
        { id := node_id, amountSat := 100000, announce := params.private' }
      match fund request with
      | FundChannelOutcome.success resp =>
        { response := resp.mindepth.map (fun d =>
            (statusOK,
             { status := "OK"
               mindepth := some d
               channel_id := some resp.channel_id
               outnum := some resp.outnum
               tx := some resp.tx
               txid := some resp.txid }))
          store := (validateAndConsume store params.k1).2
          fundCall := some request }
      | FundChannelOutcome.unexpectedResponse =>
        { response := some (statusInternalServerError,
            { status := "ERROR", reason := some "Unexpected response type" })
          store := (validateAndConsume store params.k1).2
          fundCall := some request }
      | FundChannelOutcome.rpcError e =>
        { response := some (statusInternalServerError,
            { status := "ERROR", reason := some ("Failed to open channel: " ++ e) })
          store := (validateAndConsume store params.k1).2
          fundCall := some request }

/-! ## request-withdraw (LUD-03, step 1) -/

/-- Response body of `GET /request-withdraw`. -/
structure RequestWithdrawResponse where
  callback : String
  k1 : String
  tag : String
  defaultDescription : String
  minWithdrawable : Nat
  maxWithdrawable : Nat
deriving DecidableEq

/-- Embedding of the `request_withdraw` handler; `k1` is the freshly
generated UUID string passed in as a parameter. -/
def request_withdraw (store : K1Store) (k1 : String) :
    (Nat × RequestWithdrawResponse) × K1Store :=
  ((statusOK,
    { callback := CALLBACK_URL ++ "withdraw"
      k1 := k1
      tag := WITHDRAW_REQUEST_TAG
      defaultDescription := DEFAULT_DESCRIPTION
      minWithdrawable := 1000
      maxWithdrawable := 1000000 }),
   insert k1 store)

/-! ## withdraw (LUD-03, step 2) -/

/-- Query parameters of `GET /withdraw`. -/
structure WithdrawParams where
  k1 : String
  pr : String
deriving DecidableEq

/-- Response body of `GET /withdraw`. -/
structure WithdrawResponse where
  status : String
  reason : Option String := none
deriving DecidableEq

/-- Outcome of the `client.call(Request::Decode(..))` adapter call: a
successful decode carries the invoice `amount_msat` field (an
`Option<Amount>`, recorded in millisatoshis). -/
inductive DecodeOutcome where
  | success (amount_msat : Option Nat)
  | unexpectedResponse
  | rpcError (msg : String)
deriving DecidableEq

/-- The `PayRequest` built by the detached payment task.  Every field the
source sets to `None` defaults to `none`; `maxfeepercent` embeds the `f64`
value `1.0` as the exact rational it denotes. -/
structure PayRequest where
  bolt11 : String
  amount_msat : Option Nat := none
  label : Option String := none
  riskfactor : Option Nat := none
  maxfeepercent : Option ℚ := none
  retry_for : Option Nat := none
  maxdelay : Option Nat := none
  exemptfee : Option Nat := none
deriving DecidableEq

/-- Result of one `withdraw` handler invocation: the HTTP response, the
store afterwards, and the pay request handed to the spawned background
task, when one was spawned. -/
structure WithdrawResult where
  response : Nat × WithdrawResponse
  store : K1Store
  spawnedPay : Option PayRequest
deriving DecidableEq

/-- Embedding of the `withdraw` handler.  `decode` gives the adapter
outcome for decoding the submitted invoice string. -/
def withdraw (store : K1Store) (params : WithdrawParams)
    (decode : String → DecodeOutcome) : WithdrawResult :=
  if (validateAndConsume store params.k1).1 = false then
    { response := (statusBadRequest,
        { status := "ERROR", reason := some "Invalid or already used k1" })
      store := (validateAndConsume store params.k1).2
      spawnedPay := none }
  else
    match decode params.pr with
    | DecodeOutcome.success (some msat) =>
      if msat < 1000 then
        { response := (statusBadRequest,
            { status := "ERROR"
              reason := some ("Amount " ++ toString msat ++
                " msat below minimum 1000 msat") })
          store := (validateAndConsume store params.k1).2
          spawnedPay := none }
      else if msat > 1000000 then
        { response := (statusBadRequest,
            { status := "ERROR"
              reason := some ("Amount " ++ toString msat ++
                " msat exceeds maximum 1000000 msat") })
          store := (validateAndConsume store params.k1).2
          spawnedPay := none }
      else
        { response := (statusOK, { status := "OK", reason := none })
          store := (validateAndConsume store params.k1).2
          spawnedPay := some
            { bolt11 := params.pr
              maxfeepercent := some 1
              retry_for := some 60 } }
    | DecodeOutcome.success none =>
      { response := (statusBadRequest,
          { status := "ERROR", reason := some "Invoice has no amount" })
        store := (validateAndConsume store params.k1).2
        spawnedPay := none }
    | DecodeOutcome.unexpectedResponse =>
      { response := (statusBadRequest,
          { status := "ERROR", reason := some "Failed to decode invoice" })
        store := (validateAndConsume store params.k1).2
        spawnedPay := none }
    | DecodeOutcome.rpcError e =>
      { response := (statusBadRequest,
          { status := "ERROR", reason := some ("Invalid invoice: " ++ e) })
        store := (validateAndConsume store params.k1).2
        spawnedPay := none }

/-- Outcome of the detached `client.call(Request::Pay(..))` adapter call. -/
inductive PayOutcome where
  | success
  | unexpectedResponse
  | rpcError (msg : String)
deriving DecidableEq

/-- The handler together with its detached payment executor: the spawned
task, when present, runs the pay call; its outcome is only logged and has
no path back into the already-computed handler result. -/
def withdrawWithPayment (store : K1Store) (params : WithdrawParams)
    (decode : String → DecodeOutcome) (pay : PayRequest → PayOutcome) :
    WithdrawResult × Option PayOutcome :=
  let r := withdraw store params decode
  (r, r.spawnedPay.map pay)

/-! ## auth-challenge / auth-response (LUD-04) -/

/-- Response body of `GET /auth-challenge`. -/
structure AuthChallengeResponse where
  k1 : String
deriving DecidableEq

/-- Lowercase hex digit of a value below 16, as in `format "\x7b:02x\x7d"`. -/
def hexChar (n : Nat) : Char :=
  if n < 10 then Char.ofNat (48 + n) else Char.ofNat (87 + n)

/-- Two-digit lowercase hex encoding of one byte. -/
def byteToHex (b : Nat) : String :=
  String.mk [hexChar (b / 16 % 16), hexChar (b % 16)]

/-- Hex encoding of a byte sequence, as produced by mapping `"\x7b:02x\x7d"`
over the bytes and collecting into a `String`. -/
def hexEncode (bytes : List Nat) : String :=
  String.join (bytes.map byteToHex)

/-- Embedding of the `auth_challenge` handler; `random_bytes` stands for
the 32 bytes drawn from `rand::thread_rng()`. -/
def auth_challenge (store : K1Store) (random_bytes : List Nat) :
    (Nat × AuthChallengeResponse) × K1Store :=
  ((statusOK, { k1 := hexEncode random_bytes }),
   insert (hexEncode random_bytes) store)

/-- Query parameters of `GET /auth-response`. -/
structure AuthResponseParams where
  k1 : String
  signature : String
  pubkey : String
deriving DecidableEq

/-- Response body of `GET /auth-response`. -/
structure AuthResult where
  status : String
  event : Option String := none
  reason : Option String := none
deriving DecidableEq

/-- The `CheckmessageRequest` the handler builds: message is the token,
`zbase` the submitted signature, `pubkey` the parsed key. -/
structure CheckmessageRequest where
  message : String
  zbase : String
  pubkey : Option String
deriving DecidableEq

/-- Outcome of the `client.call(Request::CheckMessage(..))` adapter call. -/
inductive CheckOutcome where
  | success (verified : Bool)
  | unexpectedResponse
  | rpcError (msg : String)
deriving DecidableEq

/-- Result of one `auth_response` handler invocation. -/
structure AuthResponseResult where
  response : Nat × AuthResult
  store : K1Store
deriving DecidableEq

/-- Embedding of the `auth_response` handler.  `parsePubkey` is the outcome
of `PublicKey::from_str(&params.pubkey)` (the parsed key kept as its string
form); `checkmessage` gives the adapter outcome for the verification call. -/
def auth_response (store : K1Store) (params : AuthResponseParams)
    (parsePubkey : Except String String)
    (checkmessage : CheckmessageRequest → CheckOutcome) : AuthResponseResult :=
  if (validateAndConsume store params.k1).1 = false then
    { response := (statusBadRequest,
        { status := "ERROR", reason := some "Invalid or expired k1" })
      store := (validateAndConsume store params.k1).2 }
  else
    match parsePubkey with
    | Except.error e =>
      { response := (statusBadRequest,
          { status := "ERROR", reason := some ("Invalid pubkey: " ++ e) })
        store := (validateAndConsume store params.k1).2 }
    | Except.ok pubkey =>
      match checkmessage
        { message := params.k1, zbase := params.signature,
          pubkey := some pubkey } with
      | CheckOutcome.success verified =>
        if verified then
          { response := (statusOK,
              { status := "OK", event := some "LOGGEDIN" })
            store := (validateAndConsume store params.k1).2 }
        else
          { response := (statusUnauthorized,
              { status := "ERROR",
                reason := some "Signature verification failed" })
            store := (validateAndConsume store params.k1).2 }
      | CheckOutcome.unexpectedResponse =>
        { response := (statusInternalServerError,
            { status := "ERROR",
              reason := some "Unexpected response from checkmessage" })
          store := (validateAndConsume store params.k1).2 }
      | CheckOutcome.rpcError e =>
        { response := (statusInternalServerError,
            { status := "ERROR",
              reason := some ("Verification error: " ++ e) })
          store := (validateAndConsume store params.k1).2 }

/-! ## Client-side truncation (src/client/src/main.rs, channel_request) -/

/-- `secp256k1::constants::PUBLIC_KEY_SIZE`: a compressed public key
serializes to 33 bytes. -/
def PUBLIC_KEY_SIZE : Nat := 33

/-- Model of `node_uri.split_off(n)` as used for its side effect: the
string retains exactly its first `n` characters (all strings involved are
ASCII, so byte and character indices agree). -/
def splitOffKeep (s : String) (n : Nat) : String :=
  String.mk (s.data.take n)

/-- The node URI built by the client `get_node_uri` helper:
`"\x7bpubkey\x7d@\x7baddress\x7d"` with the configured listening address. -/
def get_node_uri (pubkey : String) : String :=
  pubkey ++ "@" ++ "192.168.27.72:49735"

/-- The `remoteid` value the client `channel_request` flow sends in the
open-channel callback: the node URI truncated at `PUBLIC_KEY_SIZE * 2`. -/
def channel_request_remoteid (pubkey : String) : String :=
  splitOffKeep (get_node_uri pubkey) (PUBLIC_KEY_SIZE * 2)

/-! ## General lemmas about the handlers -/

/-- The store after any `open_channel` invocation is the input store with
the submitted token erased, on every branch. -/
theorem open_channel_store_eq (s : K1Store) (p : OpenChannelParams)
    (parse : Except String String)
    (fund : FundchannelRequest → FundChannelOutcome) :
    (open_channel s p parse fund).store = s.erase p.k1 := by
  unfold open_channel
  split
  · rfl
  · split
    · rfl
    · dsimp only
      split <;> rfl

/-- The store after any `withdraw` invocation is the input store with the
submitted token erased, on every branch. -/
theorem withdraw_store_eq (s : K1Store) (p : WithdrawParams)
    (decode : String → DecodeOutcome) :
    (withdraw s p decode).store = s.erase p.k1 := by
  unfold withdraw
  split
  · rfl
  · split
    · split
      · rfl
      · split <;> rfl
    · rfl
    · rfl
    · rfl

/-- The store after any `auth_response` invocation is the input store with
the submitted token erased, on every branch. -/
theorem auth_response_store_eq (s : K1Store) (p : AuthResponseParams)
    (parse : Except String String)
    (check : CheckmessageRequest → CheckOutcome) :
    (auth_response s p parse check).store = s.erase p.k1 := by
  unfold auth_response
  split
  · rfl
  · split
    · rfl
    · split
      · split <;> rfl
      · rfl
      · rfl

/-- An `open_channel` invocation whose token is not in the store makes no
fund-channel call. -/
theorem open_channel_fundCall_of_not_mem (s : K1Store) (p : OpenChannelParams)
    (parse : Except String String)
    (fund : FundchannelRequest → FundChannelOutcome) (h : p.k1 ∉ s) :
    (open_channel s p parse fund).fundCall = none := by
  unfold open_channel
  simp [validateAndConsume, h]

/-! ## C1 -/

/-- C1: the claim states that after token validation and node-id parsing
the fund-channel call uses a fixed 100,000-satoshi amount and
`announce = not private`.  The code instead passes the privacy flag itself
as `announce`: at a concrete invocation with a valid token, a parsable
remote id and `private = some true`, the request sent to the adapter is
`announce = some true`, not the inverse `some false`.  The fixed
100,000-satoshi amount does hold. -/
theorem c1_fund_announce_equals_privacy_flag :
    (open_channel {"k"} { remoteid := "02aa", k1 := "k", private' := some true }
        (Except.ok "02aa") (fun _ => FundChannelOutcome.unexpectedResponse)).fundCall
      = some { id := "02aa", amountSat := 100000, announce := some true } := by
  decide

/-! ## C2 -/

/-- C2 counterexample: the claim states that a failing decode call in the
withdraw callback yields status 500; in the code the `Err` branch of the
decode call returns `StatusCode::BAD_REQUEST`, so at a concrete failing
decode the status is 400 and not 500. -/
theorem c2_withdraw_decode_failure_is_400 :
    (withdraw {"k"} { k1 := "k", pr := "inv" }
        (fun _ => DecodeOutcome.rpcError "boom")).response.1 = statusBadRequest
  ∧ (withdraw {"k"} { k1 := "k", pr := "inv" }
        (fun _ => DecodeOutcome.rpcError "boom")).response.1
      ≠ statusInternalServerError := by
  decide

/-- C2 (amended): a failing fund-channel call in the open-channel callback
and a failing checkmessage call in the auth callback are surfaced as status
500 carrying the adapter's message; a failing decode call in the withdraw
callback is surfaced as status 400, still carrying the adapter's message. -/
theorem c2_adapter_failure_statuses (s : K1Store) (pO : OpenChannelParams)
    (pW : WithdrawParams) (pA : AuthResponseParams) (nid pk e : String)
    (hO : pO.k1 ∈ s) (hW : pW.k1 ∈ s) (hA : pA.k1 ∈ s) :
    (open_channel s pO (Except.ok nid)
        (fun _ => FundChannelOutcome.rpcError e)).response
      = some (statusInternalServerError,
          { status := "ERROR", reason := some ("Failed to open channel: " ++ e) })
  ∧ (withdraw s pW (fun _ => DecodeOutcome.rpcError e)).response
      = (statusBadRequest,
          { status := "ERROR", reason := some ("Invalid invoice: " ++ e) })
  ∧ (auth_response s pA (Except.ok pk)
        (fun _ => CheckOutcome.rpcError e)).response
      = (statusInternalServerError,
          { status := "ERROR", reason := some ("Verification error: " ++ e) }) := by
  refine ⟨?_, ?_, ?_⟩ <;>
    simp [open_channel, withdraw, auth_response, validateAndConsume, hO, hW, hA]

/-- C2 witness: the amended statement at a concrete store, concrete
parameters and a concrete adapter error message. -/
theorem c2_adapter_failure_statuses_witness :
    (open_channel {"a"} { remoteid := "r", k1 := "a", private' := none }
        (Except.ok "02")
        (fun _ => FundChannelOutcome.rpcError "x")).response
      = some (statusInternalServerError,
          { status := "ERROR", reason := some ("Failed to open channel: " ++ "x") })
  ∧ (withdraw {"a"} { k1 := "a", pr := "i" }
        (fun _ => DecodeOutcome.rpcError "x")).response
      = (statusBadRequest,
          { status := "ERROR", reason := some ("Invalid invoice: " ++ "x") })
  ∧ (auth_response {"a"} { k1 := "a", signature := "s", pubkey := "p" }
        (Except.ok "02")
        (fun _ => CheckOutcome.rpcError "x")).response
      = (statusInternalServerError,
          { status := "ERROR", reason := some ("Verification error: " ++ "x") }) :=
  c2_adapter_failure_statuses {"a"} { remoteid := "r", k1 := "a", private' := none }
    { k1 := "a", pr := "i" } { k1 := "a", signature := "s", pubkey := "p" }
    "02" "02" "x" (by decide) (by decide) (by decide)

/-! ## C3 -/

/-- C3: for a token present in the store, the first validate-and-consume
succeeds and removes it; on any store no longer containing the token (in
particular any store reached after the consumption, since every handler
only erases), a further validate-and-consume fails, and none of the three
callback handlers — whatever their parameters, parse outcomes and adapter
outcomes, hence also on every error path — re-introduces the token. -/
theorem c3_token_single_use (s sub : K1Store) (t : String)
    (pO : OpenChannelParams) (parse : Except String String)
    (fund : FundchannelRequest → FundChannelOutcome)
    (pW : WithdrawParams) (decode : String → DecodeOutcome)
    (pA : AuthResponseParams) (parseA : Except String String)
    (check : CheckmessageRequest → CheckOutcome)
    (h : t ∈ s) (hsub : t ∉ sub) :
    (validateAndConsume s t).1 = true
  ∧ t ∉ (validateAndConsume s t).2
  ∧ (validateAndConsume sub t).1 = false
  ∧ t ∉ (open_channel sub pO parse fund).store
  ∧ t ∉ (withdraw sub pW decode).store
  ∧ t ∉ (auth_response sub pA parseA check).store := by
  refine ⟨by simp [validateAndConsume, h],
    Finset.not_mem_erase t s,
    by simp [validateAndConsume, hsub], ?_, ?_, ?_⟩
  · rw [open_channel_store_eq]
    exact fun hm => hsub (Finset.mem_of_mem_erase hm)
  · rw [withdraw_store_eq]
    exact fun hm => hsub (Finset.mem_of_mem_erase hm)
  · rw [auth_response_store_eq]
    exact fun hm => hsub (Finset.mem_of_mem_erase hm)

/-- C3 witness: concrete store, token and handler invocations on error
paths (failed parse, missing invoice amount, failed verification). -/
theorem c3_token_single_use_witness :
    (validateAndConsume {"t"} "t").1 = true
  ∧ "t" ∉ (validateAndConsume {"t"} "t").2
  ∧ (validateAndConsume (∅ : K1Store) "t").1 = false
  ∧ "t" ∉ (open_channel ∅ { remoteid := "r", k1 := "t", private' := none }
      (Except.error "bad id") (fun _ => FundChannelOutcome.unexpectedResponse)).store
  ∧ "t" ∉ (withdraw ∅ { k1 := "t", pr := "inv" }
      (fun _ => DecodeOutcome.success none)).store
  ∧ "t" ∉ (auth_response ∅ { k1 := "t", signature := "sig", pubkey := "pk" }
      (Except.error "bad pk") (fun _ => CheckOutcome.success false)).store :=
  c3_token_single_use {"t"} ∅ "t"
    { remoteid := "r", k1 := "t", private' := none } (Except.error "bad id")
    (fun _ => FundChannelOutcome.unexpectedResponse)
    { k1 := "t", pr := "inv" } (fun _ => DecodeOutcome.success none)
    { k1 := "t", signature := "sig", pubkey := "pk" } (Except.error "bad pk")
    (fun _ => CheckOutcome.success false)
    (by decide) (by decide)

/-! ## C4 -/

/-- With a valid token and a decoded amount below 1000 msat, the withdraw
handler rejects with the minimum-bound message. -/
theorem withdraw_below_min (s : K1Store) (p : WithdrawParams) (a : Nat)
    (h : p.k1 ∈ s) (ha : a < 1000) :
    (withdraw s p (fun _ => DecodeOutcome.success (some a))).response
      = (statusBadRequest,
          { status := "ERROR"
            reason := some ("Amount " ++ toString a ++
              " msat below minimum 1000 msat") }) := by
  simp [withdraw, validateAndConsume, h, ha]

/-- With a valid token and a decoded amount above 1,000,000 msat, the
withdraw handler rejects with the maximum-bound message. -/
theorem withdraw_above_max (s : K1Store) (p : WithdrawParams) (a : Nat)
    (h : p.k1 ∈ s) (ha : a > 1000000) :
    (withdraw s p (fun _ => DecodeOutcome.success (some a))).response
      = (statusBadRequest,
          { status := "ERROR"
            reason := some ("Amount " ++ toString a ++
              " msat exceeds maximum 1000000 msat") }) := by
  have h1 : ¬ a < 1000 := by omega
  simp [withdraw, validateAndConsume, h, h1, ha]

/-- With a valid token and a decoded amount within the bounds, the withdraw
handler accepts and spawns the detached pay task. -/
theorem withdraw_in_bounds (s : K1Store) (p : WithdrawParams) (a : Nat)
    (h : p.k1 ∈ s) (ha : 1000 ≤ a) (hb : a ≤ 1000000) :
    (withdraw s p (fun _ => DecodeOutcome.success (some a))).response
      = (statusOK, { status := "OK", reason := none })
  ∧ (withdraw s p (fun _ => DecodeOutcome.success (some a))).spawnedPay
      = some { bolt11 := p.pr, maxfeepercent := some 1, retry_for := some 60 } := by
  have h1 : ¬ a < 1000 := by omega
  have h2 : ¬ a > 1000000 := by omega
  constructor <;> simp [withdraw, validateAndConsume, h, h1, h2]

/-- C4: with a valid token, a decoded amount `a` is accepted (status 200,
body status "OK") exactly when `1000 ≤ a ≤ 1000000`; 999 and 1000001 are
rejected with the violated bound in the reason, 1000 and 1000000 are
accepted, a missing amount is rejected; and the bounds the callback
enforces are the same 1000 / 1000000 values `request_withdraw`
advertises. -/
theorem c4_withdraw_bounds (s : K1Store) (p : WithdrawParams) (a : Nat)
    (g : String) (h : p.k1 ∈ s) :
    ((withdraw s p (fun _ => DecodeOutcome.success (some a))).response.1 = statusOK
      ↔ (1000 ≤ a ∧ a ≤ 1000000))
  ∧ ((withdraw s p (fun _ => DecodeOutcome.success (some a))).response.2.status = "OK"
      ↔ (1000 ≤ a ∧ a ≤ 1000000))
  ∧ (withdraw s p (fun _ => DecodeOutcome.success (some 999))).response
      = (statusBadRequest,
          { status := "ERROR",
            reason := some "Amount 999 msat below minimum 1000 msat" })
  ∧ (withdraw s p (fun _ => DecodeOutcome.success (some 1000001))).response
      = (statusBadRequest,
          { status := "ERROR",
            reason := some "Amount 1000001 msat exceeds maximum 1000000 msat" })
  ∧ (withdraw s p (fun _ => DecodeOutcome.success (some 1000))).response
      = (statusOK, { status := "OK", reason := none })
  ∧ (withdraw s p (fun _ => DecodeOutcome.success (some 1000000))).response
      = (statusOK, { status := "OK", reason := none })
  ∧ (withdraw s p (fun _ => DecodeOutcome.success none)).response
      = (statusBadRequest,
          { status := "ERROR", reason := some "Invoice has no amount" })
  ∧ (request_withdraw s g).1.2.minWithdrawable = 1000
  ∧ (request_withdraw s g).1.2.maxWithdrawable = 1000000 := by
  refine ⟨?_, ?_, ?_, ?_, ?_, ?_, ?_, rfl, rfl⟩
  · rcases Nat.lt_or_ge a 1000 with h1 | h1
    · rw [withdraw_below_min s p a h h1]
      exact iff_of_false (by show ¬(statusBadRequest = statusOK); decide) (by omega)
    · rcases Nat.lt_or_ge 1000000 a with h2 | h2
      · rw [withdraw_above_max s p a h h2]
        exact iff_of_false (by show ¬(statusBadRequest = statusOK); decide) (by omega)
      · rw [(withdraw_in_bounds s p a h h1 h2).1]
        exact iff_of_true (by decide) (by omega)
  · rcases Nat.lt_or_ge a 1000 with h1 | h1
    · rw [withdraw_below_min s p a h h1]
      exact iff_of_false (by show ¬(("ERROR" : String) = "OK"); decide) (by omega)
    · rcases Nat.lt_or_ge 1000000 a with h2 | h2
      · rw [withdraw_above_max s p a h h2]
        exact iff_of_false (by show ¬(("ERROR" : String) = "OK"); decide) (by omega)
      · rw [(withdraw_in_bounds s p a h h1 h2).1]
        exact iff_of_true (by decide) (by omega)
  · rw [withdraw_below_min s p 999 h (by omega)]
    decide
  · rw [withdraw_above_max s p 1000001 h (by omega)]
    decide
  · exact (withdraw_in_bounds s p 1000 h (by omega) (by omega)).1
  · exact (withdraw_in_bounds s p 1000000 h (by omega) (by omega)).1
  · simp [withdraw, validateAndConsume, h]

/-- C4 witness: the bound behaviour at a concrete store, concrete
parameters and the amount 1000. -/
theorem c4_withdraw_bounds_witness :
    ((withdraw {"a"} { k1 := "a", pr := "i" }
        (fun _ => DecodeOutcome.success (some 1000))).response.1 = statusOK
      ↔ (1000 ≤ 1000 ∧ 1000 ≤ 1000000))
  ∧ ((withdraw {"a"} { k1 := "a", pr := "i" }
        (fun _ => DecodeOutcome.success (some 1000))).response.2.status = "OK"
      ↔ (1000 ≤ 1000 ∧ 1000 ≤ 1000000))
  ∧ (withdraw {"a"} { k1 := "a", pr := "i" }
        (fun _ => DecodeOutcome.success (some 999))).response
      = (statusBadRequest,
          { status := "ERROR",
            reason := some "Amount 999 msat below minimum 1000 msat" })
  ∧ (withdraw {"a"} { k1 := "a", pr := "i" }
        (fun _ => DecodeOutcome.success (some 1000001))).response
      = (statusBadRequest,
          { status := "ERROR",
            reason := some "Amount 1000001 msat exceeds maximum 1000000 msat" })
  ∧ (withdraw {"a"} { k1 := "a", pr := "i" }
        (fun _ => DecodeOutcome.success (some 1000))).response
      = (statusOK, { status := "OK", reason := none })
  ∧ (withdraw {"a"} { k1 := "a", pr := "i" }
        (fun _ => DecodeOutcome.success (some 1000000))).response
      = (statusOK, { status := "OK", reason := none })
  ∧ (withdraw {"a"} { k1 := "a", pr := "i" }
        (fun _ => DecodeOutcome.success none)).response
      = (statusBadRequest,
          { status := "ERROR", reason := some "Invoice has no amount" })
  ∧ (request_withdraw {"a"} "g").1.2.minWithdrawable = 1000
  ∧ (request_withdraw {"a"} "g").1.2.maxWithdrawable = 1000000 :=
  c4_withdraw_bounds {"a"} { k1 := "a", pr := "i" } 1000 "g" (by decide)

/-! ## C5 -/

/-- C5: after any open-channel run the submitted token is out of the store;
a run whose token is absent from the store makes no fund-channel call
(consumption is a strict precondition of funding); and replaying the same
token against the store left by a first run never reaches the fund-channel
call, so a replay triggers at most one funding invocation. -/
theorem c5_consumption_precedes_funding (s sub : K1Store)
    (p p2 : OpenChannelParams) (parse parse2 : Except String String)
    (fund fund2 : FundchannelRequest → FundChannelOutcome)
    (hsub : p.k1 ∉ sub) (hk : p2.k1 = p.k1) :
    p.k1 ∉ (open_channel s p parse fund).store
  ∧ (open_channel sub p parse fund).fundCall = none
  ∧ (open_channel (open_channel s p parse fund).store p2 parse2 fund2).fundCall
      = none := by
  refine ⟨?_, open_channel_fundCall_of_not_mem sub p parse fund hsub, ?_⟩
  · rw [open_channel_store_eq]
    exact Finset.not_mem_erase _ _
  · apply open_channel_fundCall_of_not_mem
    rw [open_channel_store_eq, hk]
    exact Finset.not_mem_erase _ _

/-- C5 witness: a concrete first run that does fund, and the replay of the
same token, which does not. -/
theorem c5_consumption_precedes_funding_witness :
    "a" ∉ (open_channel {"a"} { remoteid := "02", k1 := "a", private' := none }
      (Except.ok "02") (fun _ => FundChannelOutcome.unexpectedResponse)).store
  ∧ (open_channel ∅ { remoteid := "02", k1 := "a", private' := none }
      (Except.ok "02") (fun _ => FundChannelOutcome.unexpectedResponse)).fundCall
      = none
  ∧ (open_channel
      (open_channel {"a"} { remoteid := "02", k1 := "a", private' := none }
        (Except.ok "02") (fun _ => FundChannelOutcome.unexpectedResponse)).store
      { remoteid := "02", k1 := "a", private' := none }
      (Except.ok "02") (fun _ => FundChannelOutcome.unexpectedResponse)).fundCall
      = none :=
  c5_consumption_precedes_funding {"a"} ∅
    { remoteid := "02", k1 := "a", private' := none }
    { remoteid := "02", k1 := "a", private' := none }
    (Except.ok "02") (Except.ok "02")
    (fun _ => FundChannelOutcome.unexpectedResponse)
    (fun _ => FundChannelOutcome.unexpectedResponse)
    (by decide) rfl

/-! ## C6 -/

/-- C6: a withdraw callback with a valid token and an in-bounds decoded
amount answers 200 OK; the pay request handed to the spawned task targets
the same invoice string with `maxfeepercent = 1.0` and `retry_for = 60`;
and the handler result (response included) is the same whatever outcome
the detached payment later has. -/
theorem c6_withdraw_async_payment (s : K1Store) (p : WithdrawParams) (a : Nat)
    (pay1 pay2 : PayRequest → PayOutcome)
    (h : p.k1 ∈ s) (ha : 1000 ≤ a) (hb : a ≤ 1000000) :
    (withdraw s p (fun _ => DecodeOutcome.success (some a))).response
      = (statusOK, { status := "OK", reason := none })
  ∧ (withdraw s p (fun _ => DecodeOutcome.success (some a))).spawnedPay
      = some { bolt11 := p.pr, maxfeepercent := some 1, retry_for := some 60 }
  ∧ (withdrawWithPayment s p (fun _ => DecodeOutcome.success (some a)) pay1).1
      = (withdrawWithPayment s p (fun _ => DecodeOutcome.success (some a)) pay2).1 :=
  ⟨(withdraw_in_bounds s p a h ha hb).1,
   (withdraw_in_bounds s p a h ha hb).2, rfl⟩

/-- C6 witness: the accepted withdrawal at a concrete invocation, with two
payment executors of opposite outcomes. -/
theorem c6_withdraw_async_payment_witness :
    (withdraw {"a"} { k1 := "a", pr := "inv" }
        (fun _ => DecodeOutcome.success (some 5000))).response
      = (statusOK, { status := "OK", reason := none })
  ∧ (withdraw {"a"} { k1 := "a", pr := "inv" }
        (fun _ => DecodeOutcome.success (some 5000))).spawnedPay
      = some { bolt11 := "inv", maxfeepercent := some 1, retry_for := some 60 }
  ∧ (withdrawWithPayment {"a"} { k1 := "a", pr := "inv" }
        (fun _ => DecodeOutcome.success (some 5000)) (fun _ => PayOutcome.success)).1
      = (withdrawWithPayment {"a"} { k1 := "a", pr := "inv" }
        (fun _ => DecodeOutcome.success (some 5000))
        (fun _ => PayOutcome.rpcError "fail")).1 :=
  c6_withdraw_async_payment {"a"} { k1 := "a", pr := "inv" } 5000
    (fun _ => PayOutcome.success) (fun _ => PayOutcome.rpcError "fail")
    (by decide) (by omega) (by omega)

/-! ## C7 -/

/-- C7: with a valid token and a parsable public key, the auth-response
handler answers 200 / "OK" / event "LOGGEDIN" when the adapter reports
verified, 401 / "ERROR" / "Signature verification failed" when it reports
not verified, and 500 / "ERROR" with the adapter message when the
verification call itself fails. -/
theorem c7_auth_response_branches (s : K1Store) (p : AuthResponseParams)
    (pk e : String) (h : p.k1 ∈ s) :
    (auth_response s p (Except.ok pk)
        (fun _ => CheckOutcome.success true)).response
      = (statusOK, { status := "OK", event := some "LOGGEDIN" })
  ∧ (auth_response s p (Except.ok pk)
        (fun _ => CheckOutcome.success false)).response
      = (statusUnauthorized,
          { status := "ERROR", reason := some "Signature verification failed" })
  ∧ (auth_response s p (Except.ok pk)
        (fun _ => CheckOutcome.rpcError e)).response
      = (statusInternalServerError,
          { status := "ERROR", reason := some ("Verification error: " ++ e) }) := by
  refine ⟨?_, ?_, ?_⟩ <;> simp [auth_response, validateAndConsume, h]

/-- C7 witness: the three verification outcomes at a concrete store and
concrete parameters. -/
theorem c7_auth_response_branches_witness :
    (auth_response {"a"} { k1 := "a", signature := "z", pubkey := "02" }
        (Except.ok "02") (fun _ => CheckOutcome.success true)).response
      = (statusOK, { status := "OK", event := some "LOGGEDIN" })
  ∧ (auth_response {"a"} { k1 := "a", signature := "z", pubkey := "02" }
        (Except.ok "02") (fun _ => CheckOutcome.success false)).response
      = (statusUnauthorized,
          { status := "ERROR", reason := some "Signature verification failed" })
  ∧ (auth_response {"a"} { k1 := "a", signature := "z", pubkey := "02" }
        (Except.ok "02") (fun _ => CheckOutcome.rpcError "down")).response
      = (statusInternalServerError,
          { status := "ERROR", reason := some ("Verification error: " ++ "down") }) :=
  c7_auth_response_branches {"a"} { k1 := "a", signature := "z", pubkey := "02" }
    "02" "down" (by decide)

/-! ## C8 -/

/-- Keeping the first `n` characters of a concatenation whose first part
has length `n` returns exactly that first part. -/
theorem splitOffKeep_append (l m : List Char) (n : Nat) (h : l.length = n) :
    splitOffKeep (String.mk (l ++ m)) n = String.mk l := by
  unfold splitOffKeep
  exact congrArg String.mk (List.take_left' h)

/-- C8: for a public key in canonical compressed hex form (66 characters),
the client channel flow truncates its locally-built
"public-key@host:port" node URI at character 66, so the `remoteid` it
sends is exactly the public key string, of length `PUBLIC_KEY_SIZE * 2`. -/
theorem c8_remoteid_is_pubkey (pubkey : String) (h : pubkey.length = 66) :
    channel_request_remoteid pubkey = pubkey
  ∧ (channel_request_remoteid pubkey).length = PUBLIC_KEY_SIZE * 2 := by
  obtain ⟨l⟩ := pubkey
  have hu : get_node_uri (String.mk l)
      = String.mk (l ++ ('@' :: "192.168.27.72:49735".data)) := by
    show String.mk ((l ++ '@' :: List.nil) ++ "192.168.27.72:49735".data) = _
    rw [List.append_assoc]
    rfl
  have hl : l.length = 66 := h
  have hmain : channel_request_remoteid (String.mk l) = String.mk l := by
    rw [channel_request_remoteid, hu]
    exact splitOffKeep_append l _ (PUBLIC_KEY_SIZE * 2) hl
  exact ⟨hmain, by rw [hmain]; exact hl⟩

/-- C8 witness: a concrete 66-character compressed-key hex string passes
through the truncation unchanged. -/
theorem c8_remoteid_is_pubkey_witness :
    channel_request_remoteid
        "020123456789abcdef0123456789abcdef0123456789abcdef0123456789abcdef"
      = "020123456789abcdef0123456789abcdef0123456789abcdef0123456789abcdef"
  ∧ (channel_request_remoteid
        "020123456789abcdef0123456789abcdef0123456789abcdef0123456789abcdef").length
      = PUBLIC_KEY_SIZE * 2 :=
  c8_remoteid_is_pubkey
    "020123456789abcdef0123456789abcdef0123456789abcdef0123456789abcdef"
    (by decide)

/-! ## C9 -/

/-- C9 counterexample: the claim states every issuance produces a token
guaranteed unique among the currently-outstanding tokens at the moment of
insertion; the handlers insert a freshly generated random value with no
collision check, so when the generated value coincides with an outstanding
token the issuance proceeds anyway: here the generated token is already in
the store, and the two issuances collapse onto one stored token. -/
theorem c9_issuance_collision_possible :
    "t" ∈ ({"t"} : K1Store)
  ∧ (request_channel {"t"} "uri" "t").2 = {"t"}
  ∧ (request_channel {"t"} "uri" "t").1.2.k1 = "t" := by
  decide

/-- C9 (amended): every issuance records the generated token as
outstanding and returns it in the response; the token is unique among the
previously-outstanding tokens only under the assumption that the freshly
generated random value is not already in the store, which the code does
not check. -/
theorem c9_issuance_records_token (s : K1Store) (uri k1 : String)
    (bytes : List Nat) (t : String) (hfresh : k1 ∉ s) (ht : t ∈ s) :
    (request_channel s uri k1).2 = insert k1 s
  ∧ k1 ∈ (request_channel s uri k1).2
  ∧ (request_channel s uri k1).1.2.k1 = k1
  ∧ (request_withdraw s k1).2 = insert k1 s
  ∧ k1 ∈ (request_withdraw s k1).2
  ∧ hexEncode bytes ∈ (auth_challenge s bytes).2
  ∧ (auth_challenge s bytes).1.2.k1 = hexEncode bytes
  ∧ t ≠ k1 :=
  ⟨rfl, Finset.mem_insert_self k1 s, rfl, rfl, Finset.mem_insert_self k1 s,
   Finset.mem_insert_self (hexEncode bytes) s, rfl,
   fun he => hfresh (he ▸ ht)⟩

/-- C9 witness: a fresh token against a concrete store holding one other
token. -/
theorem c9_issuance_records_token_witness :
    (request_channel {"t"} "uri" "u").2 = insert "u" {"t"}
  ∧ "u" ∈ (request_channel {"t"} "uri" "u").2
  ∧ (request_channel {"t"} "uri" "u").1.2.k1 = "u"
  ∧ (request_withdraw {"t"} "u").2 = insert "u" {"t"}
  ∧ "u" ∈ (request_withdraw {"t"} "u").2
  ∧ hexEncode [0] ∈ (auth_challenge {"t"} [0]).2
  ∧ (auth_challenge {"t"} [0]).1.2.k1 = hexEncode [0]
  ∧ "t" ≠ "u" :=
  c9_issuance_records_token {"t"} "uri" "u" [0] "t" (by decide) (by decide)

/-! ## C10 -/

/-- C10: with a valid token and a parsed remote id, a successful
fund-channel response has its optional `mindepth` field unwrapped
unconditionally: when it is `none` the handler panics and produces no HTTP
response at all (embedded as `response = none`), and when it is `some d`
the 200 OK body carries `d` together with the channel metadata. -/
theorem c10_mindepth_unwrap (s : K1Store) (p : OpenChannelParams)
    (nid : String) (r : FundchannelResponse) (d : Nat) (h : p.k1 ∈ s) :
    (open_channel s p (Except.ok nid)
        (fun _ => FundChannelOutcome.success { r with mindepth := none })).response
      = none
  ∧ (open_channel s p (Except.ok nid)
        (fun _ => FundChannelOutcome.success { r with mindepth := some d })).response
      = some (statusOK,
          { status := "OK"
            mindepth := some d
            channel_id := some r.channel_id
            outnum := some r.outnum
            tx := some r.tx
            txid := some r.txid }) := by
  constructor <;> simp [open_channel, validateAndConsume, h]

/-- C10 witness: a concrete success response without and with `mindepth`. -/
theorem c10_mindepth_unwrap_witness :
    (open_channel {"a"} { remoteid := "02", k1 := "a", private' := none }
        (Except.ok "02")
        (fun _ => FundChannelOutcome.success
          { mindepth := none, channel_id := "cid", outnum := 0,
            tx := "tx", txid := "txid" })).response
      = none
  ∧ (open_channel {"a"} { remoteid := "02", k1 := "a", private' := none }
        (Except.ok "02")
        (fun _ => FundChannelOutcome.success
          { mindepth := some 3, channel_id := "cid", outnum := 0,
            tx := "tx", txid := "txid" })).response
      = some (statusOK,
          { status := "OK"
            mindepth := some 3
            channel_id := some "cid"
            outnum := some 0
            tx := some "tx"
            txid := some "txid" }) :=
  c10_mindepth_unwrap {"a"} { remoteid := "02", k1 := "a", private' := none }
    "02" { mindepth := none, channel_id := "cid", outnum := 0,
           tx := "tx", txid := "txid" } 3 (by decide)

end Lnurl
